import Mathlib

/-!
Shallow embedding of the training-driver orchestration code of this
repository: the DreamBooth diffusion fine-tuning model
(`nemo/collections/multimodal/models/dreambooth/dreambooth.py`) and the
Megatron retrieval-augmented language model
(`nemo/collections/nlp/models/language_modeling/megatron_retrieval_model.py`).

Tensors are embedded as lists of rationals (batch-major tensors as lists of
lists), fallible code returns `Option`, and the communication calls issued by
a training step are embedded as an explicit trace of `SyncAction`s.
-/

namespace Spec2Proof

/-- `torch.chunk(x, 2, dim=0)`: split a batch-major tensor into two chunks
along the batch dimension; the first chunk holds `⌈len/2⌉` entries, the
second chunk holds the rest. -/
def chunk2 {α : Type} (l : List α) : List α × List α :=
  (l.take ((l.length + 1) / 2), l.drop ((l.length + 1) / 2))

/-- Sum of elementwise squared differences between two flat tensors. -/
def sqDiffSum (a b : List ℚ) : ℚ :=
  (List.zipWith (fun x y => (x - y) ^ 2) a b).sum

/-- Number of scalar elements of a batch-major tensor. -/
def numel (t : List (List ℚ)) : ℕ :=
  (t.map List.length).sum

/-- `torch.nn.functional.mse_loss(pred, target, reduction="mean")` on
batch-major tensors: the mean over every scalar element of the squared
difference. -/
def mse_loss (pred target : List (List ℚ)) : ℚ :=
  (List.zipWith sqDiffSum pred target).sum / (numel pred : ℚ)

/-- Target selection in `DreamBooth.forward` (dreambooth.py lines 163-168):
`"x0"` targets the clean latents, `"eps"` targets the injected noise, and any
other parameterization raises `NotImplementedError`, embedded as `none`. -/
def parameterization_target {α : Type} (parameterization : String)
    (latents noise : α) : Option α :=
  if parameterization = "x0" then some latents
  else if parameterization = "eps" then some noise
  else none

/-- Loss combination in `DreamBooth.forward` (dreambooth.py lines 170-178).
With prior preservation the model output and the target are each split in two
with `torch.chunk(·, 2, dim=0)`, the mean-squared error of each half is taken
independently, and the result is `loss + prior_loss * prior_loss_weight`;
without prior preservation it is a single mean-squared error. -/
def dreambooth_forward_loss (with_prior_preservation : Bool)
    (prior_loss_weight : ℚ) (model_output target : List (List ℚ)) : ℚ :=
  if with_prior_preservation then
    mse_loss (chunk2 model_output).1 (chunk2 target).1 +
      mse_loss (chunk2 model_output).2 (chunk2 target).2 * prior_loss_weight
  else
    mse_loss target model_output

/-- One example produced by the DreamBooth dataset: instance/regularization
prompt and instance/regularization image. -/
structure DreamBoothExample (ι π : Type) where
  instance_prompt : π
  reg_prompt : π
  instance_images : ι
  reg_images : ι

/-- `_collate_fn` (dreambooth.py lines 71-86): with prior preservation the
prompts pair up instance and regularization prompts and the images list is
the concatenation of all instance images followed by all regularization
images; otherwise only the instance data is collated.  (`torch.stack` keeps
the list order, so the stacked tensor is embedded as the list itself.) -/
def collate_fn {ι π : Type} (with_prior_preservation : Bool)
    (examples : List (DreamBoothExample ι π)) : List (List π) × List ι :=
  if with_prior_preservation then
    (examples.map (fun e => [e.instance_prompt, e.reg_prompt]),
     examples.map (fun e => e.instance_images) ++
       examples.map (fun e => e.reg_images))
  else
    (examples.map (fun e => [e.instance_prompt]),
     examples.map (fun e => e.instance_images))

/-- Masked language-model loss of `MegatronRetrievalModel.training_step` and
`validation_step` (megatron_retrieval_model.py lines 371-372 and 473-474):
`torch.sum(loss.view(-1) * loss_mask.reshape(-1)) / loss_mask.sum()`, with
the per-token loss and the loss mask flattened to flat lists. -/
def masked_lm_loss (loss loss_mask : List ℚ) : ℚ :=
  (List.zipWith (fun a b => a * b) loss loss_mask).sum / loss_mask.sum

/-- A per-microbatch result mapping returned by the pipeline engine on the
terminal pipeline stage; it carries the scalar under the key `'loss'`. -/
structure LossRecord where
  loss : ℚ
deriving DecidableEq

/-- Loss aggregation of `MegatronDreamBooth.training_step` (dreambooth.py
lines 261-269): a non-empty list of per-microbatch records is stacked and
averaged; an empty list (a non-terminal pipeline stage) yields a zero
scalar. -/
def training_step_loss_mean (losses_reduced_per_micro_batch : List LossRecord) : ℚ :=
  if losses_reduced_per_micro_batch ≠ [] then
    (losses_reduced_per_micro_batch.map LossRecord.loss).sum /
      (losses_reduced_per_micro_batch.length : ℚ)
  else 0

/-- A synchronization or communication call a training step can issue. -/
inductive SyncAction where
  | allreduceMainGrads : SyncAction
  | allreduceGradients : SyncAction
  | cudaSynchronize : SyncAction
  | broadcastFromLastRank : SyncAction
  | averageLossesAcrossDataParallelGroup : SyncAction
deriving DecidableEq

/-- Gradient-synchronization calls of `MegatronDreamBooth.training_step`
(dreambooth.py lines 275-287): distributed Adam reduces internally (no
call), megatron_amp_O2 calls `allreduce_main_grads`, otherwise
`allreduce_gradients` performs the data-parallel all-reduce on raw
gradients. -/
def dreambooth_grad_sync (with_distributed_adam megatron_amp_O2 : Bool) :
    List SyncAction :=
  if with_distributed_adam then []
  else if megatron_amp_O2 then [SyncAction.allreduceMainGrads]
  else [SyncAction.allreduceGradients]

/-- Gradient-synchronization calls of `MegatronRetrievalModel.training_step`
(megatron_retrieval_model.py lines 381-398): distributed Adam reduces
internally (no call); under megatron_amp_O2 the step synchronizes the CUDA
stream when `pipeline_model_parallel_size == 1` and calls
`allreduce_main_grads` only when it is greater than 1; in the remaining
(plain) mode the `allreduce_gradients` call is commented out and the branch
is `pass`. -/
def retrieval_grad_sync (pipeline_model_parallel_size : ℕ)
    (with_distributed_adam megatron_amp_o2 : Bool) : List SyncAction :=
  if with_distributed_adam then []
  else if megatron_amp_o2 then
    (if pipeline_model_parallel_size = 1 then [SyncAction.cudaSynchronize]
     else []) ++
      (if 1 < pipeline_model_parallel_size then [SyncAction.allreduceMainGrads]
       else [])
  else []

/-- Loss-related and gradient-related communication trace of
`MegatronDreamBooth.training_step` (dreambooth.py lines 275-289): the
gradient synchronization runs first, then
`torch.distributed.broadcast(loss_mean, get_last_rank())`. -/
def dreambooth_training_step_comms (with_distributed_adam megatron_amp_O2 : Bool) :
    List SyncAction :=
  dreambooth_grad_sync with_distributed_adam megatron_amp_O2 ++
    [SyncAction.broadcastFromLastRank]

/-- Loss-related and gradient-related communication trace of
`MegatronRetrievalModel.training_step` (megatron_retrieval_model.py lines
373-398): `average_losses_across_data_parallel_group` runs on the masked
loss first, then the gradient synchronization; no broadcast is issued. -/
def retrieval_training_step_comms (pipeline_model_parallel_size : ℕ)
    (with_distributed_adam megatron_amp_o2 : Bool) : List SyncAction :=
  SyncAction.averageLossesAcrossDataParallelGroup ::
    retrieval_grad_sync pipeline_model_parallel_size with_distributed_adam
      megatron_amp_o2

/-- A learning-rate scheduler's mutable state: its internal step counter
(`last_epoch`).  The effective learning rate is a pure function of this
counter, so equal states give equal learning rates. -/
structure SchedulerState where
  last_epoch : ℤ
deriving DecidableEq

/-- `scheduler.step()`: advance the internal step counter by one. -/
def scheduler_step (s : SchedulerState) : SchedulerState :=
  { last_epoch := s.last_epoch + 1 }

/-- The per-scheduler correction of
`MegatronRetrievalModel.on_train_batch_end` (megatron_retrieval_model.py
lines 440-444): `scheduler.last_epoch -= 2` followed by
`scheduler.step()`. -/
def skip_correction (s : SchedulerState) : SchedulerState :=
  scheduler_step { s with last_epoch := s.last_epoch - 2 }

/-- The state read and written by
`MegatronRetrievalModel.on_train_batch_end`: the grad scaler's
`optimizer_update_skipped` flag, the registered scheduler configurations, and
the `automatic_optimization` switch of the lightning module. -/
structure TrainerSchedState where
  optimizer_update_skipped : Option Bool
  schedulers : List SchedulerState
  automatic_optimization : Bool
deriving DecidableEq

/-- `MegatronRetrievalModel.on_train_batch_end` (megatron_retrieval_model.py
lines 415-450), for a trainer whose precision plugin holds a `GradScaler`:
when the scaler reports a skipped optimizer step, and some scheduler is
registered and automatic optimization is active, every scheduler receives the
skip correction and the skipped flag is reset to `None`; when no scheduler is
registered or automatic optimization is off the hook returns early, leaving
the flag untouched. -/
def on_train_batch_end (t : TrainerSchedState) : TrainerSchedState :=
  if t.optimizer_update_skipped = some true then
    if t.schedulers = [] ∨ t.automatic_optimization = false then t
    else
      { t with
          schedulers := t.schedulers.map skip_correction,
          optimizer_update_skipped := none }
  else t

/-- `MegatronDreamBooth._validate_trainer` (dreambooth.py lines 486-493):
`True` when the check raises, i.e. when
`trainer.accumulate_grad_batches > 1`. -/
def validate_trainer_raises (accumulate_grad_batches : ℕ) : Bool :=
  decide (1 < accumulate_grad_batches)

/-- A torch parameter: an identity, its `requires_grad` flag, and its data. -/
structure TorchParam where
  id : ℕ
  requires_grad : Bool
  data : ℚ
deriving DecidableEq

/-- `DreamBooth.instantiate_vae` (dreambooth.py lines 123-128) on the VAE's
parameter list: every parameter's `requires_grad` is set to `False`. -/
def instantiate_vae (params : List TorchParam) : List TorchParam :=
  params.map (fun p => { p with requires_grad := false })

/-- `disabled_train` (dreambooth.py lines 65-68), installed as the VAE's
`train` method: it returns `self` unchanged for any requested mode. -/
def disabled_train (self : List TorchParam) (mode : Bool) : List TorchParam :=
  self

/-- The `DreamBooth` module's three parameter-holding sub-models and the
`train_text_encoder` flag. -/
structure DreamBoothModel where
  unet : List TorchParam
  vae : List TorchParam
  text_encoder : List TorchParam
  train_text_encoder : Bool

/-- `DreamBooth.parameters` (dreambooth.py lines 182-187): the UNet
parameters, extended with the text-encoder parameters exactly when
`train_text_encoder` is set; the VAE list is never consulted. -/
def DreamBoothModel.parameters (m : DreamBoothModel) : List TorchParam :=
  m.unet ++ (if m.train_text_encoder then m.text_encoder else [])

/-- An optimizer step updates exactly the parameters handed to the optimizer
(identified by `id`); any other parameter is left unchanged. -/
def optimizer_step (update : TorchParam → TorchParam)
    (trained : List TorchParam) (p : TorchParam) : TorchParam :=
  if p.id ∈ trained.map TorchParam.id then update p else p

/-! ## Theorems -/

/-- Helper: multiplying a list elementwise against a mask that is zero at
position `i` gives the same list whatever value stands at position `i`. -/
theorem zipWith_mul_set_of_zero :
    ∀ (l m : List ℚ) (i : ℕ) (v : ℚ) (hl : i < l.length) (hm : i < m.length),
      m.get ⟨i, hm⟩ = 0 →
        List.zipWith (fun a b => a * b) (l.set i v) m =
          List.zipWith (fun a b => a * b) l m := by
  intro l
  induction l with
  | nil => intro m i v hl; exact absurd hl (by simp)
  | cons a l ih =>
    intro m i v hl hm hz
    cases m with
    | nil => exact absurd hm (by simp)
    | cons b m =>
      cases i with
      | zero =>
        simp only [List.get] at hz
        simp [hz]
      | succ i =>
        simp only [List.set, List.zipWith]
        congr 1
        exact ih m i v (by simpa using hl) (by simpa using hm) (by simpa using hz)

/-- Helper: a map that fixes every member of a list is the identity on it. -/
theorem map_id_of_mem {α : Type} (f : α → α) :
    ∀ l : List α, (∀ x ∈ l, f x = x) → l.map f = l := by
  intro l
  induction l with
  | nil => intro _; rfl
  | cons a l ih =>
    intro h
    simp [h a (by simp), ih (fun x hx => h x (by simp [hx]))]

/-- Claim C1: with prior preservation, `DreamBooth.forward` splits the model
output and the target each into two equal halves along the batch dimension
(instance half first, regularization half second — the batch has even length
`2 * n` by construction of `_collate_fn`), computes the mean-squared error of
each half independently, and returns exactly
`instance_mse + prior_loss_weight * regularization_mse`. -/
theorem c1_prior_loss_decomposition (w : ℚ) (mo tgt : List (List ℚ)) (n : ℕ)
    (hmo : mo.length = 2 * n) (htgt : tgt.length = 2 * n) :
    dreambooth_forward_loss true w mo tgt =
      mse_loss (mo.take n) (tgt.take n) + w * mse_loss (mo.drop n) (tgt.drop n) := by
  have h1 : (mo.length + 1) / 2 = n := by omega
  have h2 : (tgt.length + 1) / 2 = n := by omega
  simp only [dreambooth_forward_loss, chunk2, h1, h2, if_true]
  ring

/-- Witness for C1 at a concrete even-length microbatch. -/
theorem c1_prior_loss_decomposition_witness :
    dreambooth_forward_loss true 2 [[1], [3]] [[0], [0]] =
      mse_loss (([[1], [3]] : List (List ℚ)).take 1)
          (([[0], [0]] : List (List ℚ)).take 1) +
        2 * mse_loss (([[1], [3]] : List (List ℚ)).drop 1)
          (([[0], [0]] : List (List ℚ)).drop 1) :=
  c1_prior_loss_decomposition 2 [[1], [3]] [[0], [0]] 1 (by decide) (by decide)

/-- Claim C2: the retrieval model's training/validation loss is the masked
sum of the per-token loss divided by the mask total, so changing the
per-token loss at a masked-out position (a zero mask entry) leaves the
computed scalar loss unchanged. -/
theorem c2_masked_loss_invariant (loss loss_mask : List ℚ) (i : ℕ) (v : ℚ)
    (hl : i < loss.length) (hm : i < loss_mask.length)
    (hz : loss_mask.get ⟨i, hm⟩ = 0) :
    masked_lm_loss (loss.set i v) loss_mask = masked_lm_loss loss loss_mask := by
  unfold masked_lm_loss
  rw [zipWith_mul_set_of_zero loss loss_mask i v hl hm hz]

/-- Witness for C2: perturbing position 1 under mask `[1, 0]` keeps the loss. -/
theorem c2_masked_loss_invariant_witness :
    masked_lm_loss (([5, 7] : List ℚ).set 1 100) [1, 0] =
      masked_lm_loss [5, 7] [1, 0] :=
  c2_masked_loss_invariant [5, 7] [1, 0] 1 100 (by decide) (by decide) (by decide)

/-- Claim C3: in `DreamBooth.forward`, parameterization `"x0"` targets the
clean latents, `"eps"` targets the injected noise, and every other flag value
raises (`none`) instead of producing a target. -/
theorem c3_parameterization_flag (latents noise : ℚ) :
    parameterization_target "x0" latents noise = some latents ∧
    parameterization_target "eps" latents noise = some noise ∧
    ∀ p : String, p ≠ "x0" → p ≠ "eps" →
      parameterization_target p latents noise = none := by
  refine ⟨by simp [parameterization_target], by simp [parameterization_target], ?_⟩
  intro p h1 h2
  simp [parameterization_target, h1, h2]

/-- Witness for C3 at the three concrete flag values `"x0"`, `"eps"`, `"v"`. -/
theorem c3_parameterization_flag_witness :
    parameterization_target "x0" (1 : ℚ) 2 = some 1 ∧
    parameterization_target "eps" (1 : ℚ) 2 = some 2 ∧
    parameterization_target "v" (1 : ℚ) 2 = none :=
  ⟨(c3_parameterization_flag 1 2).1, (c3_parameterization_flag 1 2).2.1,
   (c3_parameterization_flag 1 2).2.2 "v" (by decide) (by decide)⟩

/-- Counterexample to claim C4: in the retrieval model's training step under
the plain mode (no distributed optimizer, no megatron_amp_O2), no all-reduce
over the data-parallel group is performed on raw parameter gradients — the
`allreduce_gradients` call is commented out and the branch is `pass`. -/
theorem c4_plain_mode_no_allreduce_counterexample :
    SyncAction.allreduceGradients ∉ retrieval_grad_sync 1 false false := by
  decide

/-- Claim C4 (amended): `MegatronDreamBooth.training_step` runs exactly one
policy as the claim states (distributed optimizer: no call; amp-O2:
`allreduce_main_grads` once; plain: the raw-gradient all-reduce once).
`MegatronRetrievalModel.training_step` differs: under the distributed
optimizer it makes no call, under amp-O2 it calls `allreduce_main_grads`
once only when `pipeline_model_parallel_size > 1` and only synchronizes the
CUDA stream when it equals 1, and in plain mode it performs no explicit
all-reduce at all. -/
theorem c4_grad_sync_policy_amended (wda amp : Bool) (pp : ℕ) :
    dreambooth_grad_sync true amp = [] ∧
    retrieval_grad_sync pp true amp = [] ∧
    (dreambooth_grad_sync wda amp).count SyncAction.allreduceMainGrads =
      (if wda = false ∧ amp = true then 1 else 0) ∧
    (dreambooth_grad_sync wda amp).count SyncAction.allreduceGradients =
      (if wda = false ∧ amp = false then 1 else 0) ∧
    (retrieval_grad_sync pp wda amp).count SyncAction.allreduceMainGrads =
      (if wda = false ∧ amp = true ∧ 1 < pp then 1 else 0) ∧
    (retrieval_grad_sync pp wda amp).count SyncAction.cudaSynchronize =
      (if wda = false ∧ amp = true ∧ pp = 1 then 1 else 0) ∧
    (retrieval_grad_sync pp wda amp).count SyncAction.allreduceGradients = 0 := by
  rcases Nat.lt_trichotomy pp 1 with h | h | h
  · have h1 : pp ≠ 1 := by omega
    have h2 : ¬ (1 < pp) := by omega
    cases wda <;> cases amp <;>
      simp [dreambooth_grad_sync, retrieval_grad_sync, h1, h2]
  · subst h
    cases wda <;> cases amp <;>
      simp [dreambooth_grad_sync, retrieval_grad_sync]
  · have h1 : pp ≠ 1 := by omega
    cases wda <;> cases amp <;>
      simp [dreambooth_grad_sync, retrieval_grad_sync, h, h1]

/-- Counterexample to claim C7: the retrieval model's training step never
broadcasts the reduced loss from the data-parallel group's last rank. -/
theorem c7_no_broadcast_counterexample :
    SyncAction.broadcastFromLastRank ∉ retrieval_training_step_comms 1 false false := by
  decide

/-- Claim C7 (amended): in `MegatronDreamBooth.training_step` the reduced
loss is broadcast exactly once, from the data-parallel group's last rank,
after the gradient synchronization (it is the final communication of the
step), so all ranks log an identical value.  In
`MegatronRetrievalModel.training_step` no such broadcast occurs: the loss is
instead averaged across the data-parallel group (before the gradient-sync
block), which also yields an identical logged value on every rank. -/
theorem c7_loss_broadcast_amended (wda amp : Bool) (pp : ℕ) :
    (dreambooth_training_step_comms wda amp).count
        SyncAction.broadcastFromLastRank = 1 ∧
    (dreambooth_training_step_comms wda amp).getLast? =
      some SyncAction.broadcastFromLastRank ∧
    (retrieval_training_step_comms pp wda amp).count
        SyncAction.broadcastFromLastRank = 0 ∧
    (retrieval_training_step_comms pp wda amp).count
        SyncAction.averageLossesAcrossDataParallelGroup = 1 ∧
    (retrieval_training_step_comms pp wda amp).head? =
      some SyncAction.averageLossesAcrossDataParallelGroup := by
  rcases Nat.lt_trichotomy pp 1 with h | h | h
  · have h1 : pp ≠ 1 := by omega
    have h2 : ¬ (1 < pp) := by omega
    cases wda <;> cases amp <;>
      simp [dreambooth_training_step_comms, retrieval_training_step_comms,
        dreambooth_grad_sync, retrieval_grad_sync, h1, h2]
  · subst h
    cases wda <;> cases amp <;>
      simp [dreambooth_training_step_comms, retrieval_training_step_comms,
        dreambooth_grad_sync, retrieval_grad_sync]
  · have h1 : pp ≠ 1 := by omega
    cases wda <;> cases amp <;>
      simp [dreambooth_training_step_comms, retrieval_training_step_comms,
        dreambooth_grad_sync, retrieval_grad_sync, h, h1]

/-- Counterexample to claim C5: when the grad scaler reports a skipped step
but no scheduler is registered, `on_train_batch_end` returns early and the
skipped flag is NOT reset. -/
theorem c5_flag_not_reset_counterexample :
    (on_train_batch_end ⟨some true, [], true⟩).optimizer_update_skipped =
      some true := by
  decide

/-- Claim C5 (amended): whenever the grad scaler reports a skipped optimizer
step, provided at least one scheduler is registered and automatic
optimization is active, `on_train_batch_end` rewinds every scheduler's step
counter by two and steps it once — a net no-op against the scheduler advance
of the skipped step, so the effective learning rate (a function of the step
counter) equals its value before the skipped step — and resets the skipped
flag, so the correction is applied exactly once per detected skip; with no
registered scheduler or with manual optimization the hook returns early
without resetting the flag. -/
theorem c5_scheduler_skip_correction_amended (t : TrainerSchedState)
    (hskip : t.optimizer_update_skipped = some true)
    (hsched : t.schedulers ≠ [])
    (hauto : t.automatic_optimization = true) :
    (∀ s : SchedulerState, skip_correction (scheduler_step s) = s) ∧
    (on_train_batch_end t).schedulers = t.schedulers.map skip_correction ∧
    (on_train_batch_end t).optimizer_update_skipped = none ∧
    on_train_batch_end (on_train_batch_end t) = on_train_batch_end t := by
  have hrun : on_train_batch_end t =
      { t with
          schedulers := t.schedulers.map skip_correction,
          optimizer_update_skipped := none } := by
    unfold on_train_batch_end
    rw [if_pos hskip, if_neg]
    simp [hsched, hauto]
  refine ⟨?_, ?_, ?_, ?_⟩
  · intro s
    cases s with
    | mk n =>
      simp [skip_correction, scheduler_step]
      ring
  · rw [hrun]
  · rw [hrun]
  · rw [hrun]
    unfold on_train_batch_end
    simp

/-- Witness for C5 (amended) at a concrete skipped-step trainer state with
one registered scheduler at step counter 5. -/
theorem c5_scheduler_skip_correction_witness :
    (on_train_batch_end ⟨some true, [⟨5⟩], true⟩).schedulers =
        [(⟨5⟩ : SchedulerState)].map skip_correction ∧
    (on_train_batch_end ⟨some true, [⟨5⟩], true⟩).optimizer_update_skipped =
      none :=
  ⟨(c5_scheduler_skip_correction_amended ⟨some true, [⟨5⟩], true⟩ rfl
      (by decide) rfl).2.1,
   (c5_scheduler_skip_correction_amended ⟨some true, [⟨5⟩], true⟩ rfl
      (by decide) rfl).2.2.1⟩

/-- Claim C6: `MegatronDreamBooth.training_step` guards loss aggregation on
the non-emptiness of the per-microbatch loss list: an empty list (a
non-terminal pipeline stage) yields the zero scalar rather than an error, and
a non-empty list yields the average of the `'loss'` entries. -/
theorem c6_empty_loss_list_guard :
    training_step_loss_mean [] = 0 ∧
    ∀ records : List LossRecord, records ≠ [] →
      training_step_loss_mean records =
        (records.map LossRecord.loss).sum / (records.length : ℚ) := by
  constructor
  · rfl
  · intro r h
    simp [training_step_loss_mean, h]

/-- Witness for C6 at a concrete two-microbatch loss list. -/
theorem c6_empty_loss_list_guard_witness :
    training_step_loss_mean [⟨2⟩, ⟨4⟩] = 3 := by
  rw [c6_empty_loss_list_guard.2 [⟨2⟩, ⟨4⟩] (by decide)]
  norm_num

/-- Claim C8: for a trainer configuration (Lightning guarantees
`accumulate_grad_batches ≥ 1`), `MegatronDreamBooth._validate_trainer`
raises exactly when `accumulate_grad_batches ≠ 1`. -/
theorem c8_accumulate_grad_batches_validation (n : ℕ) (hpos : 1 ≤ n) :
    validate_trainer_raises n = true ↔ n ≠ 1 := by
  simp only [validate_trainer_raises, decide_eq_true_eq]
  omega

/-- Witness for C8 at `accumulate_grad_batches = 2`. -/
theorem c8_accumulate_grad_batches_validation_witness :
    1 ≤ 2 ∧ (validate_trainer_raises 2 = true ↔ 2 ≠ 1) :=
  ⟨by decide, c8_accumulate_grad_batches_validation 2 (by decide)⟩

/-- Claim C9: for every non-empty example list, `_collate_fn` with prior
preservation returns an images tensor of batch length `2 * n` whose first `n`
entries are the instance images and whose last `n` entries are the
regularization images, so the equal two-way chunk along the batch dimension
performed in `DreamBooth.forward` recovers the instance half and the
regularization half in that order. -/
theorem c9_collate_order (ι π : Type) (examples : List (DreamBoothExample ι π))
    (hne : examples ≠ []) :
    ((collate_fn true examples).2).length = 2 * examples.length ∧
    ((collate_fn true examples).2).take examples.length =
      examples.map (fun e => e.instance_images) ∧
    ((collate_fn true examples).2).drop examples.length =
      examples.map (fun e => e.reg_images) ∧
    chunk2 ((collate_fn true examples).2) =
      (examples.map (fun e => e.instance_images),
       examples.map (fun e => e.reg_images)) := by
  have hA : (examples.map (fun e => e.instance_images)).length =
      examples.length := by simp
  have hB : (examples.map (fun e => e.reg_images)).length =
      examples.length := by simp
  have hlen : ((collate_fn true examples).2).length = 2 * examples.length := by
    simp [collate_fn]
    omega
  have htake : ((collate_fn true examples).2).take examples.length =
      examples.map (fun e => e.instance_images) := by
    simp only [collate_fn, if_true]
    rw [← hA, List.take_left]
  have hdrop : ((collate_fn true examples).2).drop examples.length =
      examples.map (fun e => e.reg_images) := by
    simp only [collate_fn, if_true]
    rw [← hA, List.drop_left]
  refine ⟨hlen, htake, hdrop, ?_⟩
  have hhalf : (((collate_fn true examples).2).length + 1) / 2 =
      examples.length := by omega
  simp only [chunk2, hhalf]
  rw [htake, hdrop]

/-- Witness for C9 at a concrete one-example list. -/
theorem c9_collate_order_witness :
    ((collate_fn true [(⟨1, 2, 10, 20⟩ : DreamBoothExample ℕ ℕ)]).2).length =
        2 * 1 ∧
    chunk2 ((collate_fn true [(⟨1, 2, 10, 20⟩ : DreamBoothExample ℕ ℕ)]).2) =
      ([10], [20]) := by
  have h := c9_collate_order ℕ ℕ [⟨1, 2, 10, 20⟩] (by simp)
  refine ⟨h.1, ?_⟩
  rw [h.2.2.2]
  rfl

/-- Claim C10: the VAE sub-model is permanently frozen — `instantiate_vae`
clears `requires_grad` on every VAE parameter and the installed
`disabled_train` method is a no-op for any mode; `DreamBooth.parameters`
yields the UNet parameters plus the text-encoder parameters exactly when
`train_text_encoder` is set, and never a VAE parameter; hence an optimizer
step over the collected parameters (with VAE parameter identities distinct
from collected ones, as distinct module parameters are) leaves the VAE
unchanged. -/
theorem c10_vae_frozen (cfgParams : List TorchParam) (m : DreamBoothModel)
    (update : TorchParam → TorchParam)
    (hdisjoint : ∀ p ∈ m.vae,
      p.id ∉ (DreamBoothModel.parameters m).map TorchParam.id) :
    (∀ p ∈ instantiate_vae cfgParams, p.requires_grad = false) ∧
    (∀ (ps : List TorchParam) (mode : Bool), disabled_train ps mode = ps) ∧
    (∀ p : TorchParam, p ∈ DreamBoothModel.parameters m ↔
      p ∈ m.unet ∨ (m.train_text_encoder = true ∧ p ∈ m.text_encoder)) ∧
    m.vae.map (optimizer_step update (DreamBoothModel.parameters m)) = m.vae := by
  refine ⟨?_, ?_, ?_, ?_⟩
  · intro p hp
    simp only [instantiate_vae, List.mem_map] at hp
    obtain ⟨q, _, rfl⟩ := hp
    rfl
  · intro ps mode
    rfl
  · intro p
    cases htte : m.train_text_encoder <;>
      simp [DreamBoothModel.parameters, htte]
  · apply map_id_of_mem
    intro p hp
    unfold optimizer_step
    rw [if_neg (hdisjoint p hp)]

/-- Witness for C10 at a concrete model whose VAE parameter identity is
disjoint from the collected UNet and text-encoder identities. -/
theorem c10_vae_frozen_witness :
    ([(⟨0, false, 1⟩ : TorchParam)]).map
        (optimizer_step (fun p => { p with data := p.data + 1 })
          (DreamBoothModel.parameters ⟨[⟨1, true, 2⟩], [⟨0, false, 1⟩],
            [⟨2, true, 3⟩], true⟩)) = [⟨0, false, 1⟩] :=
  (c10_vae_frozen [] ⟨[⟨1, true, 2⟩], [⟨0, false, 1⟩], [⟨2, true, 3⟩], true⟩
    (fun p => { p with data := p.data + 1 }) (by decide)).2.2.2

end Spec2Proof
